import Mathlib

/-! Shallow embedding of the Apex Compute Service (src/app.py): a small HTTP
facade over the FastF1 telemetry provider.  The pure request-handling logic
(validation, driver filtering, column projection, timedelta-to-milliseconds
conversion, record serialization) is translated into Lean functions; the
external provider is a parameter that yields either a result or an error
message, mirroring the try/except structure of the two handlers. -/

namespace Apex

/-- Raw JSON request body for both POST endpoints, before pydantic validation:
an integer year, a grand-prix string, and a session token string. -/
structure RawSessionRequest where
  year : Int
  gp : String
  session : String
deriving DecidableEq

/-- Validated request, the pydantic model SessionRequest of app.py lines 14-17. -/
structure SessionRequest where
  year : Int
  gp : String
  session : String
deriving DecidableEq

/-- The six literal tokens admitted by the session field of SessionRequest. -/
def sessionTokens : List String := ["FP1", "FP2", "FP3", "Q", "SQ", "R"]

/-- Pydantic validation of the request body: year is bounded 1950..2100 by the
Field ge/le constraints, session must be one of the six literals, gp is an
unconstrained string.  FastAPI rejects a failing body with a 422 validation
error before the handler (and hence any provider call) runs. -/
def validateSessionRequest (r : RawSessionRequest) : Except String SessionRequest :=
  if r.year < 1950 then Except.error ("year: input should be greater than or equal to 1950")
  else if 2100 < r.year then Except.error ("year: input should be less than or equal to 2100")
  else if r.session ∈ sessionTokens then Except.ok ⟨r.year, r.gp, r.session⟩
  else Except.error ("session: input should be FP1, FP2, FP3, Q, SQ or R")

/-- One present cell of the provider's lap table: a timedelta (in seconds,
exact rational), a number, a string, or a boolean.  A missing value (NaN/NaT)
is represented by Option.none at the use site. -/
inductive Cell where
  | dur (seconds : ℚ)
  | num (q : ℚ)
  | str (s : String)
  | bool (b : Bool)
deriving DecidableEq

/-- JSON-serializable values appearing in the service's responses. -/
inductive Value where
  | int (n : ℤ)
  | num (q : ℚ)
  | str (s : String)
  | bool (b : Bool)
  | strList (l : List String)
  | durRaw (seconds : ℚ)
  | null
deriving DecidableEq

/-- The provider's lap table (session.laps): a pandas DataFrame modelled as a
column schema (column name paired with its is-timedelta64-dtype flag) plus the
rows, each row a list of optional cells aligned with the schema. -/
structure LapTable where
  schema : List (String × Bool)
  rows : List (List (Option Cell))
deriving DecidableEq

/-- The fixed allow-list of column names of app.py lines 65-70. -/
def lapAllowList : List String :=
  ["Driver", "LapNumber", "Stint", "Compound", "TyreLife",
   "LapTime", "Sector1Time", "Sector2Time", "Sector3Time",
   "SpeedI1", "SpeedI2", "SpeedFL", "SpeedST",
   "IsPersonalBest", "Deleted", "TrackStatus"]

/-- The cell of a row at the column named c, or none when the row has no such
column.  (In a real DataFrame every row has every schema column.) -/
def rowCell (t : LapTable) (row : List (Option Cell)) (c : String) : Option Cell :=
  match (t.schema.zip row).find? (fun p => decide (p.1.1 = c)) with
  | some p => p.2
  | none => none

/-- The is-timedelta64 dtype flag of column c, none when the column is absent
(pd.api.types.is_timedelta64_dtype on df[c], app.py line 75). -/
def tdFlag (t : LapTable) (c : String) : Option Bool :=
  (t.schema.find? (fun p => decide (p.1 = c))).map (fun p => p.2)

/-- Column projection of app.py lines 65-72: the allow-list columns that are
actually present in the table, in allow-list order, with their dtype flags. -/
def projSchema (t : LapTable) : List (String × Bool) :=
  lapAllowList.filterMap (fun c => t.schema.find? (fun p => decide (p.1 = c)))

/-- numpy/pandas Series.round half-to-even rounding of a rational to an
integer, as performed by .round() on a float column (app.py line 76). -/
def roundHalfEven (q : ℚ) : ℤ :=
  if q - ⌊q⌋ < 1 / 2 then ⌊q⌋
  else if 1 / 2 < q - ⌊q⌋ then ⌊q⌋ + 1
  else if ⌊q⌋ % 2 = 0 then ⌊q⌋ else ⌊q⌋ + 1

/-- Serialization of a non-timedelta cell into its JSON value. -/
def plainValue : Cell → Value
  | Cell.dur s => Value.durRaw s
  | Cell.num q => Value.num q
  | Cell.str s => Value.str s
  | Cell.bool b => Value.bool b

/-- Serialization of one projected cell, app.py lines 74-78: in a timedelta
column the value is dt.total_seconds().mul(1000).round() as a nullable integer,
elsewhere the cell is passed through; a missing cell becomes None (null) via
df.where(pd.notnull(df), None). -/
def cellToValue (isTd : Bool) : Option Cell → Value
  | none => Value.null
  | some c =>
    if isTd then
      match c with
      | Cell.dur s => Value.int (roundHalfEven (1000 * s))
      | c => plainValue c
    else plainValue c

/-- One output record of to_dict(orient="records"), app.py line 78: the
projected columns in order, each mapped to its serialized value for this row. -/
def mkRecord (t : LapTable) (row : List (Option Cell)) : List (String × Value) :=
  (projSchema t).map (fun p => (p.1, cellToValue p.2 (rowCell t row p.1)))

/-- Modelled from the spec: the external provider's per-driver row filter
(laps.pick_driver, an operation of the telemetry library, not of this
repository).  Per the collaborator contract the lap table supports narrowing
to one driver's rows; a row belongs to driver d when its Driver column holds
that identifier. -/
def rowMatchesDriver (t : LapTable) (d : String) (row : List (Option Cell)) : Bool :=
  decide (rowCell t row ("Driver") = some (Cell.str d))

/-- The rows surviving the optional driver filter of app.py lines 62-63.
Python truthiness: both None and the empty string skip the filter. -/
def filteredRows (t : LapTable) (driver : Option String) : List (List (Option Cell)) :=
  match driver with
  | some d => if d = "" then t.rows else t.rows.filter (rowMatchesDriver t d)
  | none => t.rows

/-- The body of the laps response, app.py lines 78-80. -/
structure LapsResponse where
  count : Nat
  data : List (List (String × Value))
deriving DecidableEq

/-- The pure part of the session_laps handler body after a successful load:
filter, project, convert, serialize, and pair the records with their count. -/
def laps_body (t : LapTable) (driver : Option String) : LapsResponse :=
  { count := ((filteredRows t driver).map (mkRecord t)).length
  , data := (filteredRows t driver).map (mkRecord t) }

/-- An error response of the service: a 422-style validation rejection
produced by FastAPI/pydantic, or an HTTPException with status and detail. -/
inductive ApiError where
  | validation (detail : String)
  | http (status : Nat) (detail : String)
deriving DecidableEq

/-- The except-clause shared by both handlers (app.py lines 33-34 and 82-83):
any exception escaping the try block becomes HTTPException(400) whose detail
is the string FastF1 error: followed by the exception message. -/
def handle400 {α : Type} : Except String α → Except ApiError α
  | Except.ok a => Except.ok a
  | Except.error e => Except.error (ApiError.http 400 ("FastF1 error: " ++ e))

/-- The try-block of session_laps: get_session + load may fail with a message;
on success the rest of the body is the pure laps_body computation. -/
def laps_try (load : Except String LapTable) (driver : Option String) :
    Except String LapsResponse :=
  load.map (fun t => laps_body t driver)

/-- The POST /session/laps endpoint: pydantic validation, then the handler
with its single try/except; the provider argument stands for
fastf1.get_session followed by session.load for the validated request. -/
def post_session_laps (provider : SessionRequest → Except String LapTable)
    (raw : RawSessionRequest) (driver : Option String) : Except ApiError LapsResponse :=
  match validateSessionRequest raw with
  | Except.error m => Except.error (ApiError.validation m)
  | Except.ok req => handle400 (laps_try (provider req) driver)

/-- What session_info reads off a successfully loaded session: the optional
name attribute (getattr(session, "name", None)) and the outcome of evaluating
list(session.drivers), which may itself raise. -/
structure SessionData where
  name : Option String
  driversResult : Except String (List String)

/-- The response dictionary built by session_info, app.py lines 36-48: the
echoed request fields, the optional session name (null when absent), and the
driver list, downgraded to the empty list when its extraction raised. -/
def info_body (req : SessionRequest) (s : SessionData) : List (String × Value) :=
  let drivers := match s.driversResult with
    | Except.ok l => l
    | Except.error _ => []
  [("year", Value.int req.year),
   ("gp", Value.str req.gp),
   ("session", Value.str req.session),
   ("session_name", match s.name with
     | some n => Value.str n
     | none => Value.null),
   ("drivers", Value.strList drivers)]

/-- The POST /session/info endpoint: pydantic validation, then the try/except
around get_session + load, then the pure response construction. -/
def post_session_info (provider : SessionRequest → Except String SessionData)
    (raw : RawSessionRequest) : Except ApiError (List (String × Value)) :=
  match validateSessionRequest raw with
  | Except.error m => Except.error (ApiError.validation m)
  | Except.ok req => (handle400 (provider req)).map (fun s => info_body req s)

/-- Whether an optional cell is consistent with a timedelta64 column dtype:
missing, or an actual duration. -/
def cellIsDur : Option Cell → Bool
  | some (Cell.num _) => false
  | some (Cell.str _) => false
  | some (Cell.bool _) => false
  | _ => true

/-- Dtype discipline of a DataFrame: every cell of a column whose dtype is
timedelta64 is a duration or missing.  pandas guarantees this by construction;
the looser Lean table type must assume it. -/
@[reducible] def WellFormedTd (t : LapTable) : Prop :=
  ∀ p ∈ t.schema, p.2 = true → ∀ row ∈ t.rows, cellIsDur (rowCell t row p.1) = true

/-- A duration value s (in seconds) occurring in column c of the table. -/
def SourceDur (t : LapTable) (c : String) (s : ℚ) : Prop :=
  ∃ row ∈ t.rows, rowCell t row c = some (Cell.dur s)

/-- Concrete data for evaluation: a well-formed request body. -/
def rawOk : RawSessionRequest := ⟨2023, "Bahrain", "R"⟩

/-- A request body whose year lies below the validation range. -/
def rawBad : RawSessionRequest := ⟨1900, "Bahrain", "R"⟩

/-- The validated request corresponding to rawOk. -/
def reqOk : SessionRequest := ⟨2023, "Bahrain", "R"⟩

/-- A small concrete lap table: a string Driver column and a timedelta
LapTime column, one lap with a time of 90 s and one lap with a missing time. -/
def tSample : LapTable :=
  ⟨[("Driver", false), ("LapTime", true)],
   [[some (Cell.str ("VER")), some (Cell.dur 90)],
    [some (Cell.str ("HAM")), none]]⟩

/-- A provider that always loads tSample. -/
def provSample : SessionRequest → Except String LapTable :=
  fun _ => Except.ok tSample

/-- A laps provider that always fails. -/
def provFailLaps : SessionRequest → Except String LapTable :=
  fun _ => Except.error ("boom")

/-- An info provider that always fails. -/
def provFailInfo : SessionRequest → Except String SessionData :=
  fun _ => Except.error ("boom")

/-- Session data whose driver-list extraction raised. -/
def sNoDrivers : SessionData := ⟨some ("Race"), Except.error ("no drivers")⟩

/-- An info provider whose driver-list extraction fails. -/
def provNoDrivers : SessionRequest → Except String SessionData :=
  fun _ => Except.ok sNoDrivers

/-- Session data with no name attribute exposed. -/
def sNoName : SessionData := ⟨none, Except.ok ["1"]⟩

/-- An info provider whose session exposes no display name. -/
def provNoName : SessionRequest → Except String SessionData :=
  fun _ => Except.ok sNoName

/-- A lap table holding a negative duration of minus two seconds. -/
def tNeg : LapTable := ⟨[("LapTime", true)], [[some (Cell.dur (-2))]]⟩

/-- A provider that always loads tNeg. -/
def provNeg : SessionRequest → Except String LapTable :=
  fun _ => Except.ok tNeg

theorem mem_of_mem_projSchema {t : LapTable} {p : String × Bool} (hp : p ∈ projSchema t) :
    p ∈ t.schema ∧ p.1 ∈ lapAllowList := by
  rcases List.mem_filterMap.mp hp with ⟨c, hc, hfind⟩
  refine ⟨List.mem_of_find?_eq_some hfind, ?_⟩
  have h2 := List.find?_some hfind
  have h3 : p.1 = c := by simpa using h2
  exact h3 ▸ hc

theorem find?_eq_some_of_nodup {l : List (String × Bool)} (hnd : (l.map Prod.fst).Nodup)
    {p : String × Bool} (hp : p ∈ l) :
    l.find? (fun q => decide (q.1 = p.1)) = some p := by
  induction l with
  | nil => exact absurd hp (List.not_mem_nil p)
  | cons a l ih =>
    rw [List.map_cons, List.nodup_cons] at hnd
    rcases List.mem_cons.mp hp with h | h
    · subst h
      exact List.find?_cons_of_pos l (by simp)
    · have ha : a.1 ≠ p.1 := by
        intro he
        exact hnd.1 (he ▸ List.mem_map_of_mem Prod.fst h)
      rw [List.find?_cons_of_neg l (by simpa using ha)]
      exact ih hnd.2 h

theorem filteredRows_subset (t : LapTable) (driver : Option String) :
    ∀ row ∈ filteredRows t driver, row ∈ t.rows := by
  intro row h
  cases driver with
  | none => exact h
  | some d =>
    by_cases hd : d = ""
    · simpa [filteredRows, hd] using h
    · rw [filteredRows] at h
      rw [if_neg hd] at h
      exact List.mem_of_mem_filter h

theorem abs_sub_roundHalfEven (q : ℚ) : |q - (roundHalfEven q : ℚ)| ≤ 1 / 2 := by
  have h0 : (⌊q⌋ : ℚ) ≤ q := Int.floor_le q
  have h1 : q < ⌊q⌋ + 1 := Int.lt_floor_add_one q
  unfold roundHalfEven
  split_ifs with ha hb hc
  · rw [abs_le]
    constructor <;> linarith
  · rw [abs_le]
    push_cast
    constructor <;> linarith
  · rw [abs_le]
    have ha2 := le_of_not_lt ha
    have hb2 := le_of_not_lt hb
    constructor <;> linarith
  · rw [abs_le]
    have ha2 := le_of_not_lt ha
    have hb2 := le_of_not_lt hb
    push_cast
    constructor <;> linarith

theorem roundHalfEven_nonneg {q : ℚ} (hq : 0 ≤ q) : 0 ≤ roundHalfEven q := by
  have h : 0 ≤ ⌊q⌋ := Int.floor_nonneg.mpr hq
  unfold roundHalfEven
  split_ifs <;> omega

/-- C1: every successful response of POST /session/laps satisfies
count = length of data; moreover the count is exactly the number of rows
remaining after the optional driver filter. -/
theorem c1_count_eq_data_length
    (provider : SessionRequest → Except String LapTable)
    (raw : RawSessionRequest) (driver : Option String) (resp : LapsResponse)
    (h : post_session_laps provider raw driver = Except.ok resp) :
    resp.count = resp.data.length ∧
    ∀ req t, validateSessionRequest raw = Except.ok req → provider req = Except.ok t →
      resp.count = (filteredRows t driver).length := by
  cases hv : validateSessionRequest raw with
  | error m =>
    rw [post_session_laps, hv] at h
    exact Except.noConfusion h
  | ok req =>
    simp only [post_session_laps, hv] at h
    cases hp : provider req with
    | error e =>
      rw [hp] at h
      simp only [laps_try, Except.map, handle400] at h
      exact Except.noConfusion h
    | ok t =>
      rw [hp] at h
      simp only [laps_try, Except.map, handle400] at h
      have hr : resp = laps_body t driver := (Except.ok.injEq _ _).mp h |>.symm
      subst hr
      refine ⟨rfl, ?_⟩
      intro req2 t2 hv2 hp2
      have he : req2 = req := ((Except.ok.injEq _ _).mp hv2).symm
      subst he
      have he2 : t2 = t := by rw [hp] at hp2; exact ((Except.ok.injEq _ _).mp hp2).symm
      subst he2
      simp [laps_body]

/-- C1 witness: a concrete provider and request on which the laps endpoint
succeeds and the invariant is checked. -/
theorem c1_count_eq_data_length_witness :
    (laps_body tSample none).count = (laps_body tSample none).data.length ∧
    ∀ req t, validateSessionRequest rawOk = Except.ok req → provSample req = Except.ok t →
      (laps_body tSample none).count = (filteredRows t none).length :=
  c1_count_eq_data_length provSample rawOk none (laps_body tSample none) rfl

/-- C10: a driver query parameter equal to the empty string is treated exactly
as an absent filter by POST /session/laps, for every provider and body. -/
theorem c10_empty_driver_is_no_filter
    (provider : SessionRequest → Except String LapTable) (raw : RawSessionRequest) :
    post_session_laps provider raw (some ("")) = post_session_laps provider raw none := by
  unfold post_session_laps
  cases validateSessionRequest raw with
  | error m => rfl
  | ok req =>
    cases provider req with
    | error e => rfl
    | ok t => rfl

/-- C3: a request body whose year lies outside 1950..2100 or whose session
token is not one of the six literals is rejected by both POST endpoints with a
422-style validation error, and the outcome is the same for every provider, so
no call to the telemetry provider is ever made. -/
theorem c3_invalid_request_rejected (raw : RawSessionRequest) (driver : Option String)
    (h : raw.year < 1950 ∨ 2100 < raw.year ∨ raw.session ∉ sessionTokens) :
    ∃ m, (∀ provider, post_session_info provider raw = Except.error (ApiError.validation m)) ∧
         (∀ provider, post_session_laps provider raw driver = Except.error (ApiError.validation m)) := by
  have hval : ∃ m, validateSessionRequest raw = Except.error m := by
    unfold validateSessionRequest
    split_ifs with h1 h2 h3
    · exact ⟨_, rfl⟩
    · exact ⟨_, rfl⟩
    · rcases h with h | h | h
      · omega
      · omega
      · exact absurd h3 h
    · exact ⟨_, rfl⟩
  obtain ⟨m, hm⟩ := hval
  refine ⟨m, fun provider => ?_, fun provider => ?_⟩
  · rw [post_session_info, hm]
  · rw [post_session_laps, hm]

/-- C3 witness: year 1900 is rejected by both endpoints independently of the
provider. -/
theorem c3_invalid_request_rejected_witness :
    ∃ m, (∀ provider, post_session_info provider rawBad = Except.error (ApiError.validation m)) ∧
         (∀ provider, post_session_laps provider rawBad none = Except.error (ApiError.validation m)) :=
  c3_invalid_request_rejected rawBad none (Or.inl (by decide))

/-- C4: when the provider fails during session retrieval or load, both POST
endpoints answer with a 400-style error whose detail is the string
FastF1 error: followed by the provider message, and no partial response. -/
theorem c4_upstream_failure_400
    (providerInfo : SessionRequest → Except String SessionData)
    (providerLaps : SessionRequest → Except String LapTable)
    (raw : RawSessionRequest) (req : SessionRequest) (driver : Option String) (m : String)
    (hv : validateSessionRequest raw = Except.ok req)
    (hpi : providerInfo req = Except.error m)
    (hpl : providerLaps req = Except.error m) :
    post_session_info providerInfo raw = Except.error (ApiError.http 400 ("FastF1 error: " ++ m)) ∧
    post_session_laps providerLaps raw driver = Except.error (ApiError.http 400 ("FastF1 error: " ++ m)) := by
  constructor
  · simp only [post_session_info, hv, hpi, handle400, Except.map]
  · simp only [post_session_laps, hv, hpl, laps_try, handle400, Except.map]

/-- C4 witness: a failing provider with message boom yields the 400 error with
the embedded message on both endpoints. -/
theorem c4_upstream_failure_400_witness :
    post_session_info provFailInfo rawOk = Except.error (ApiError.http 400 ("FastF1 error: " ++ "boom")) ∧
    post_session_laps provFailLaps rawOk none = Except.error (ApiError.http 400 ("FastF1 error: " ++ "boom")) :=
  c4_upstream_failure_400 provFailInfo provFailLaps rawOk reqOk none ("boom") rfl rfl rfl

/-- C9: after validation succeeds, POST /session/laps either returns a
successful LapsResponse or the 400 error with the FastF1 error: prefix, never
any other error class; and the shared except-clause handle400 maps every
possible body outcome to exactly these two shapes. -/
theorem c9_uniform_laps_errors
    (provider : SessionRequest → Except String LapTable)
    (raw : RawSessionRequest) (req : SessionRequest) (driver : Option String)
    (hv : validateSessionRequest raw = Except.ok req) :
    ((∃ resp, post_session_laps provider raw driver = Except.ok resp) ∨
     (∃ m, post_session_laps provider raw driver =
        Except.error (ApiError.http 400 ("FastF1 error: " ++ m)))) ∧
    (∀ body : Except String LapsResponse,
      (∃ resp, handle400 body = Except.ok resp) ∨
      (∃ m, handle400 body = Except.error (ApiError.http 400 ("FastF1 error: " ++ m)))) := by
  constructor
  · cases hp : provider req with
    | error e =>
      right
      exact ⟨e, by simp only [post_session_laps, hv, hp, laps_try, handle400, Except.map]⟩
    | ok t =>
      left
      exact ⟨laps_body t driver, by
        simp only [post_session_laps, hv, hp, laps_try, handle400, Except.map]⟩
  · intro body
    cases body with
    | ok a => exact Or.inl ⟨a, rfl⟩
    | error e => exact Or.inr ⟨e, rfl⟩

/-- C9 witness: a concrete successful run of the laps endpoint instantiating
the uniform-error-shape theorem. -/
theorem c9_uniform_laps_errors_witness :
    ((∃ resp, post_session_laps provSample rawOk none = Except.ok resp) ∨
     (∃ m, post_session_laps provSample rawOk none =
        Except.error (ApiError.http 400 ("FastF1 error: " ++ m)))) ∧
    (∀ body : Except String LapsResponse,
      (∃ resp, handle400 body = Except.ok resp) ∨
      (∃ m, handle400 body = Except.error (ApiError.http 400 ("FastF1 error: " ++ m)))) :=
  c9_uniform_laps_errors provSample rawOk reqOk none rfl

/-- C5: in every successful laps response, every record key belongs to the
fixed allow-list and names a column actually present in the provider's table;
a column absent from the table never appears as a key. -/
theorem c5_record_keys_allowlisted
    (provider : SessionRequest → Except String LapTable)
    (raw : RawSessionRequest) (driver : Option String)
    (req : SessionRequest) (t : LapTable)
    (hv : validateSessionRequest raw = Except.ok req)
    (hp : provider req = Except.ok t) :
    post_session_laps provider raw driver = Except.ok (laps_body t driver) ∧
    ∀ rec ∈ (laps_body t driver).data, ∀ kv ∈ rec,
      kv.1 ∈ lapAllowList ∧ kv.1 ∈ t.schema.map Prod.fst := by
  constructor
  · simp only [post_session_laps, hv, hp, laps_try, handle400, Except.map]
  · intro rec hrec kv hkv
    simp only [laps_body] at hrec
    obtain ⟨row, hrow, hreceq⟩ := List.mem_map.mp hrec
    subst hreceq
    obtain ⟨p, hpmem, hpe⟩ := List.mem_map.mp hkv
    obtain ⟨hps, hpa⟩ := mem_of_mem_projSchema hpmem
    have hk : kv.1 = p.1 := by rw [← hpe]
    rw [hk]
    exact ⟨hpa, List.mem_map_of_mem Prod.fst hps⟩

/-- C5 witness: keys of the sample response records are allow-listed columns
of the sample table. -/
theorem c5_record_keys_allowlisted_witness :
    post_session_laps provSample rawOk none = Except.ok (laps_body tSample none) ∧
    ∀ rec ∈ (laps_body tSample none).data, ∀ kv ∈ rec,
      kv.1 ∈ lapAllowList ∧ kv.1 ∈ tSample.schema.map Prod.fst :=
  c5_record_keys_allowlisted provSample rawOk none reqOk tSample rfl rfl

/-- C6: a driver filter that matches no row of the provider's table yields the
successful empty response with count 0 and empty data, not an error. -/
theorem c6_unmatched_filter_empty
    (provider : SessionRequest → Except String LapTable)
    (raw : RawSessionRequest) (req : SessionRequest) (t : LapTable) (d : String)
    (hv : validateSessionRequest raw = Except.ok req)
    (hp : provider req = Except.ok t)
    (hne : d ≠ "")
    (hnm : ∀ row ∈ t.rows, rowMatchesDriver t d row = false) :
    post_session_laps provider raw (some d) = Except.ok ⟨0, []⟩ := by
  have hfil : filteredRows t (some d) = [] := by
    rw [filteredRows, if_neg hne]
    refine List.filter_eq_nil_iff.mpr ?_
    intro a ha
    rw [hnm a ha]
    exact Bool.false_ne_true
  have hlb : laps_body t (some d) = ⟨0, []⟩ := by
    rw [laps_body, hfil]
    rfl
  simp only [post_session_laps, hv, hp, laps_try, handle400, Except.map, hlb]

/-- C6 witness: filtering the sample table by an unknown driver identifier
returns the successful empty response. -/
theorem c6_unmatched_filter_empty_witness :
    post_session_laps provSample rawOk (some ("XXX")) = Except.ok ⟨0, []⟩ :=
  c6_unmatched_filter_empty provSample rawOk reqOk tSample ("XXX") rfl rfl
    (by decide) (by decide)

/-- C7: in POST /session/info, a failure of the driver-list extraction is
downgraded: the handler substitutes the empty sequence and still returns the
full successful SessionMetadata response. -/
theorem c7_driver_list_degraded
    (provider : SessionRequest → Except String SessionData)
    (raw : RawSessionRequest) (req : SessionRequest) (s : SessionData) (m : String)
    (hv : validateSessionRequest raw = Except.ok req)
    (hp : provider req = Except.ok s)
    (hd : s.driversResult = Except.error m) :
    post_session_info provider raw = Except.ok (info_body req s) ∧
    ("drivers", Value.strList []) ∈ info_body req s := by
  constructor
  · simp only [post_session_info, hv, hp, handle400, Except.map]
  · simp [info_body, hd]

/-- C7 witness: a provider whose driver-list extraction raises still produces
a successful response with an empty drivers sequence. -/
theorem c7_driver_list_degraded_witness :
    post_session_info provNoDrivers rawOk = Except.ok (info_body reqOk sNoDrivers) ∧
    ("drivers", Value.strList []) ∈ info_body reqOk sNoDrivers :=
  c7_driver_list_degraded provNoDrivers rawOk reqOk sNoDrivers ("no drivers") rfl rfl rfl

/-- C8 counterexample: when the provider exposes no display name, the response
dictionary of POST /session/info still carries the key session_name (bound to
null); the field is not absent from the response, contrary to the claim. -/
theorem c8_counterexample :
    post_session_info provNoName rawOk = Except.ok (info_body reqOk sNoName) ∧
    sNoName.name = none ∧
    ("session_name") ∈ (info_body reqOk sNoName).map Prod.fst := by
  refine ⟨rfl, rfl, ?_⟩
  simp [info_body]

/-- C8 amended: the session display name is optional and nullable: the
session_name key is always present, bound to null when the provider exposes no
name and to that name otherwise. -/
theorem c8_session_name_nullable
    (provider : SessionRequest → Except String SessionData)
    (raw : RawSessionRequest) (req : SessionRequest) (s : SessionData)
    (hv : validateSessionRequest raw = Except.ok req)
    (hp : provider req = Except.ok s) :
    post_session_info provider raw = Except.ok (info_body req s) ∧
    (s.name = none → ("session_name", Value.null) ∈ info_body req s) ∧
    (∀ n, s.name = some n → ("session_name", Value.str n) ∈ info_body req s) := by
  refine ⟨?_, ?_, ?_⟩
  · simp only [post_session_info, hv, hp, handle400, Except.map]
  · intro hn
    simp [info_body, hn]
  · intro n hn
    simp [info_body, hn]

/-- C8 witness: the nameless sample session produces the session_name key
bound to null inside a successful response. -/
theorem c8_session_name_nullable_witness :
    post_session_info provNoName rawOk = Except.ok (info_body reqOk sNoName) ∧
    (sNoName.name = none → ("session_name", Value.null) ∈ info_body reqOk sNoName) ∧
    (∀ n, sNoName.name = some n → ("session_name", Value.str n) ∈ info_body reqOk sNoName) :=
  c8_session_name_nullable provNoName rawOk reqOk sNoName rfl rfl

/-- C2 counterexample: a lap table holding a duration of minus two seconds
produces a LapRecord whose present duration field is the negative integer
-2000 milliseconds, refuting the unconditional non-negativity of the claim. -/
theorem c2_counterexample :
    post_session_laps provNeg rawOk none =
      Except.ok ⟨1, [[("LapTime", Value.int (-2000))]]⟩ ∧
    (-2000 : ℤ) < 0 := by
  constructor
  · have hbody : laps_body tNeg none = ⟨1, [[("LapTime", Value.int (-2000))]]⟩ := by
      simp [laps_body, filteredRows, tNeg, mkRecord, projSchema, lapAllowList,
        rowCell, cellToValue]
      rw [show (-(1000 * 2 : ℚ)) = ((-2000 : ℤ) : ℚ) by norm_num, roundHalfEven,
        Int.floor_intCast]
      norm_num
    simp only [post_session_laps, laps_try, handle400, Except.map]
    rw [show validateSessionRequest rawOk = Except.ok reqOk from rfl]
    simp only [provNeg, Except.map, handle400, hbody]
  · decide

/-- C2 amended: in every LapRecord of POST /session/laps, under the DataFrame
dtype discipline and distinct column names, every field belonging to a
timedelta column comes from a source cell of the table: a missing duration is
serialized as null, and a present duration of s seconds is serialized as the
integer obtained from s times 1000 by half-to-even rounding, which lies within
one half of the exact value and is non-negative whenever s is non-negative. -/
theorem c2_duration_fields_ms
    (t : LapTable) (driver : Option String)
    (hnd : (t.schema.map Prod.fst).Nodup) (hwf : WellFormedTd t)
    (rec : List (String × Value)) (hrec : rec ∈ (laps_body t driver).data)
    (k : String) (v : Value) (hkv : (k, v) ∈ rec)
    (htd : tdFlag t k = some true) :
    ∃ row ∈ t.rows,
      v = cellToValue true (rowCell t row k) ∧
      ((rowCell t row k = none ∧ v = Value.null) ∨
       (∃ s : ℚ, rowCell t row k = some (Cell.dur s) ∧
          v = Value.int (roundHalfEven (1000 * s)) ∧
          |1000 * s - (roundHalfEven (1000 * s) : ℚ)| ≤ 1 / 2 ∧
          (0 ≤ s → 0 ≤ roundHalfEven (1000 * s)))) := by
  simp only [laps_body] at hrec
  obtain ⟨row, hrow, hreceq⟩ := List.mem_map.mp hrec
  have hrowt : row ∈ t.rows := filteredRows_subset t driver row hrow
  subst hreceq
  obtain ⟨p, hpmem, hpe⟩ := List.mem_map.mp hkv
  obtain ⟨hps, hpa⟩ := mem_of_mem_projSchema hpmem
  have hk : p.1 = k := congrArg Prod.fst hpe
  have hv2 : v = cellToValue p.2 (rowCell t row p.1) := (congrArg Prod.snd hpe).symm
  have hfind := find?_eq_some_of_nodup hnd hps
  rw [hk] at hfind
  rw [tdFlag, hfind] at htd
  have hp2 : p.2 = true := by simpa using htd
  rw [hp2, hk] at hv2
  refine ⟨row, hrowt, hv2, ?_⟩
  cases hc : rowCell t row k with
  | none =>
    left
    rw [hv2, hc]
    exact ⟨rfl, rfl⟩
  | some c =>
    right
    have hdur := hwf p hps hp2 row hrowt
    rw [hk, hc] at hdur
    cases c with
    | dur s =>
      refine ⟨s, rfl, ?_, abs_sub_roundHalfEven (1000 * s), ?_⟩
      · rw [hv2, hc]
        rfl
      · intro hs
        exact roundHalfEven_nonneg (by positivity)
    | num q => simp [cellIsDur] at hdur
    | str s2 => simp [cellIsDur] at hdur
    | bool b => simp [cellIsDur] at hdur

/-- C2 witness: in the sample table the lap with a missing LapTime is
serialized with a null LapTime field, instantiating the amended theorem. -/
theorem c2_duration_fields_ms_witness :
    ∃ row ∈ tSample.rows,
      Value.null = cellToValue true (rowCell tSample row ("LapTime")) ∧
      ((rowCell tSample row ("LapTime") = none ∧ Value.null = Value.null) ∨
       (∃ s : ℚ, rowCell tSample row ("LapTime") = some (Cell.dur s) ∧
          Value.null = Value.int (roundHalfEven (1000 * s)) ∧
          |1000 * s - (roundHalfEven (1000 * s) : ℚ)| ≤ 1 / 2 ∧
          (0 ≤ s → 0 ≤ roundHalfEven (1000 * s)))) :=
  c2_duration_fields_ms tSample none (by decide) (by decide)
    (mkRecord tSample [some (Cell.str ("HAM")), none]) (by decide)
    ("LapTime") Value.null (by decide) (by decide)

end Apex
